import Mathlib

/-!
Verification of the `ai-code-pattern-discovery` core: the Usage Tracker
(`src/ai_code_pattern_discovery/rate_limiter.py`, class `RateLimiter`) and the
Command Runner (`src/ai_code_pattern_discovery/pattern_detector.py`, method
`PatternDetector._execute_claude_code`).

Modelling conventions:
* Timestamps are integers (seconds).  The Python code stores ISO-format
  datetime strings and compares them after `datetime.fromisoformat`; since
  ISO strings of `datetime.now()` compare lexicographically exactly as the
  instants they denote compare chronologically, an integer timeline is a
  faithful abstraction.  Window durations: 60 s (minute), 3600 s (hour),
  86400 s (day = 24 h).
* `datetime.now()` is passed explicitly as a `now` parameter.
* Python exceptions are modelled with `Except String`.
* The subprocess run by the Command Runner is opaque; its observable
  outcome (exit code with captured output, timeout, missing executable,
  other exception) is the `RunOutcome` input.
* Python string operations that the runner uses (`str.strip`, the split
  on newlines, the newline join, substring membership) are modelled over
  `List Char` so that every definition evaluates by kernel reduction.
-/

/-- One entry of `self.usage["requests"]`: the dict
`{"timestamp": datetime.now().isoformat(), "type": request_type}`
(rate_limiter.py lines 85-88). -/
structure UsageEvent where
  timestamp : Int
  kind : String
deriving Repr, DecidableEq

/-- The fixed limits dict set in `RateLimiter.__init__`
(rate_limiter.py lines 18-22). -/
structure RateLimits where
  requests_per_minute : Nat
  requests_per_hour : Nat
  requests_per_day : Nat
deriving Repr, DecidableEq

/-- Default limits `{"requests_per_minute": 10, "requests_per_hour": 100,
"requests_per_day": 500}` (rate_limiter.py lines 18-22). -/
def defaultLimits : RateLimits :=
  { requests_per_minute := 10, requests_per_hour := 100, requests_per_day := 500 }

/-- Models `RateLimiter._clean_old_requests` (rate_limiter.py lines 45-53): keep the
requests whose timestamp is strictly greater than `now - 24 hours`. -/
def clean_old_requests (now : Int) (requests : List UsageEvent) : List UsageEvent :=
  requests.filter (fun req => decide (now - 86400 < req.timestamp))

/-- Count of requests whose timestamp is strictly inside the trailing window
of duration `dur` ending at `now`; this is the comprehension
`sum(1 for req in requests if datetime.fromisoformat(req["timestamp"]) > X_ago)`
used in rate_limiter.py lines 67-69 and 102-104 with
`X_ago = now - timedelta(...)`. -/
def windowCount (now dur : Int) (requests : List UsageEvent) : Nat :=
  requests.countP (fun req => decide (now - dur < req.timestamp))

/-- Models `RateLimiter.check_rate_limit` (rate_limiter.py lines 55-81).  Returns the
pruned in-memory request list together with the `(allowed, reason)` pair. -/
def check_rate_limit (limits : RateLimits) (now : Int) (requests : List UsageEvent) :
    List UsageEvent × Bool × String :=
  let requests := clean_old_requests now requests
  let minute_count := windowCount now 60 requests
  let hour_count := windowCount now 3600 requests
  let day_count := windowCount now 86400 requests
  if limits.requests_per_minute ≤ minute_count then
    (requests, false, "Rate limit exceeded: " ++ toString minute_count ++ "/" ++
      toString limits.requests_per_minute ++ " requests per minute")
  else if limits.requests_per_hour ≤ hour_count then
    (requests, false, "Rate limit exceeded: " ++ toString hour_count ++ "/" ++
      toString limits.requests_per_hour ++ " requests per hour")
  else if limits.requests_per_day ≤ day_count then
    (requests, false, "Rate limit exceeded: " ++ toString day_count ++ "/" ++
      toString limits.requests_per_day ++ " requests per day")
  else
    (requests, true, "OK")

/-- The dict returned by `RateLimiter.get_usage_stats`
(rate_limiter.py lines 106-111). -/
structure UsageStats where
  minute_used : Nat
  minute_limit : Nat
  hour_used : Nat
  hour_limit : Nat
  day_used : Nat
  day_limit : Nat
  total_requests : Nat
deriving Repr, DecidableEq

/-- Models `RateLimiter.get_usage_stats` (rate_limiter.py lines 91-111).  Returns the
pruned in-memory request list together with the stats dict. -/
def get_usage_stats (limits : RateLimits) (now : Int) (requests : List UsageEvent) :
    List UsageEvent × UsageStats :=
  let requests := clean_old_requests now requests
  (requests,
    { minute_used := windowCount now 60 requests
      minute_limit := limits.requests_per_minute
      hour_used := windowCount now 3600 requests
      hour_limit := limits.requests_per_hour
      day_used := windowCount now 86400 requests
      day_limit := limits.requests_per_day
      total_requests := requests.length })

/-- Minimum of a list of integers; models Python `min(...)`, which raises
`ValueError` on an empty sequence (hence the `Option`). -/
def listMin : List Int → Option Int
  | [] => none
  | x :: xs =>
    match listMin xs with
    | none => some x
    | some m => some (if x ≤ m then x else m)

/-- One window block of `RateLimiter.time_until_reset`
(rate_limiter.py lines 130-133 and analogues): if the count of requests in
the trailing window of duration `dur` is at or above `limit`, take the oldest
such request (Python `min(..., key=lambda x: x["timestamp"])`; only its
timestamp is used) and report `max 0 (oldest + dur - now)`; otherwise no
entry.  `min` of an empty sequence raises `ValueError`, possible only when
`limit = 0`. -/
def window_reset (limit : Nat) (dur now : Int) (requests : List UsageEvent) :
    Except String (Option Int) :=
  let window_requests := requests.filter (fun req => decide (now - dur < req.timestamp))
  if limit ≤ window_requests.length then
    match listMin (window_requests.map (fun req => req.timestamp)) with
    | some oldest => .ok (some (max 0 (oldest + dur - now)))
    | none => .error "ValueError: min() arg is an empty sequence"
  else
    .ok none

/-- The dict returned by `RateLimiter.time_until_reset`: at most one entry per
window name, present exactly when the corresponding `if` body ran. -/
structure ResetTimes where
  minute : Option Int
  hour : Option Int
  day : Option Int
deriving Repr, DecidableEq

/-- Models `RateLimiter.time_until_reset` (rate_limiter.py lines 113-145).  Note that
this method does not call `_clean_old_requests` and does not mutate
`self.usage`. -/
def time_until_reset (limits : RateLimits) (now : Int) (requests : List UsageEvent) :
    Except String ResetTimes := do
  let m ← window_reset limits.requests_per_minute 60 now requests
  let h ← window_reset limits.requests_per_hour 3600 now requests
  let d ← window_reset limits.requests_per_day 86400 now requests
  pure { minute := m, hour := h, day := d }

/-- The tracker state: the in-memory list `self.usage["requests"]` and the
content of the storage file `self.cache_file` (as the event list it encodes).
Following the success path of `_save_usage`, a write stores the current
in-memory list; the source swallows write errors, which we do not model. -/
structure TrackerState where
  usage : List UsageEvent
  stored : List UsageEvent
deriving Repr, DecidableEq

/-- Models `RateLimiter.record_request` (rate_limiter.py lines 83-89): append one
event `{timestamp: now, type: request_type}` to the in-memory list, then
`_save_usage` writes the whole list to the storage file.  There is no quota
check on this path. -/
def record_request (now : Int) (request_type : String) (s : TrackerState) : TrackerState :=
  let usage := s.usage ++ [{ timestamp := now, kind := request_type }]
  { usage := usage, stored := usage }

/-- Wraps `check_rate_limit` as a transition on the full tracker state: it prunes
the in-memory list (via `_clean_old_requests`) but never calls `_save_usage`,
so the storage file is untouched. -/
def check_rate_limit_sys (limits : RateLimits) (now : Int) (s : TrackerState) :
    TrackerState × Bool × String :=
  let r := check_rate_limit limits now s.usage
  ({ s with usage := r.1 }, r.2)

/-- Wraps `get_usage_stats` as a transition on the full tracker state: prunes the
in-memory list, never writes the storage file. -/
def get_usage_stats_sys (limits : RateLimits) (now : Int) (s : TrackerState) :
    TrackerState × UsageStats :=
  let r := get_usage_stats limits now s.usage
  ({ s with usage := r.1 }, r.2)

/-- Wraps `time_until_reset` as a transition on the full tracker state: it neither
prunes nor writes, so the state is returned unchanged. -/
def time_until_reset_sys (limits : RateLimits) (now : Int) (s : TrackerState) :
    TrackerState × Except String ResetTimes :=
  (s, time_until_reset limits now s.usage)

/-- A JSON value, as produced by Python `json.load`.  Numbers stand for the
ISO timestamp strings the tracker stores (see the timeline convention in the
file header). -/
inductive Json where
  | null : Json
  | bool : Bool → Json
  | num : Int → Json
  | str : String → Json
  | arr : List Json → Json
  | obj : List (String × Json) → Json

/-- Models `RateLimiter._load_usage` (rate_limiter.py lines 26-35).  The input is the
outcome of reading the storage file: `none` when `self.cache_file` does not
exist, `some (.error e)` when `json.load` raises (the bare `except` catches
everything), `some (.ok j)` when it parses.  Absent or unparseable content
yields `{"requests": []}`; parsed content is returned as-is. -/
def load_usage (file : Option (Except String Json)) : Json :=
  match file with
  | none => .obj [("requests", .arr [])]
  | some (.error _) => .obj [("requests", .arr [])]
  | some (.ok j) => j

/-- First value bound to `key` in an association list (Python dict lookup for
the dicts `json.load` produces). -/
def lookupField : List (String × Json) → String → Option Json
  | [], _ => none
  | (k, v) :: rest, key => if k = key then some v else lookupField rest key

/-- Python subscripting `value[key]`: a `KeyError` if the dict lacks the key,
a `TypeError` if the value is not a dict. -/
def getItem (j : Json) (key : String) : Except String Json :=
  match j with
  | .obj fields =>
    match lookupField fields key with
    | some v => .ok v
    | none => .error ("KeyError: " ++ key)
  | _ => .error ("TypeError: value is not subscriptable by " ++ key)

/-- Evaluation of `datetime.fromisoformat(req["timestamp"])` on one element of
the requests list: a `KeyError`/`TypeError` if the element is not a dict with
a `"timestamp"` entry, a `TypeError` if that entry is not a (modelled)
timestamp.  The `"type"` field is never read on this path. -/
def decodeTimestamp (j : Json) : Except String Int := do
  let ts ← getItem j "timestamp"
  match ts with
  | .num n => .ok n
  | _ => .error "TypeError: fromisoformat argument is not a timestamp string"

/-- Runs `check_rate_limit` directly on freshly loaded file content: the
constructor stores the `_load_usage` result in `self.usage`, then
`check_rate_limit` evaluates `self.usage["requests"]`, iterates the
timestamps, and applies the counting logic.  Any shape mismatch raises where
the Python subscripting/iteration would. -/
def check_rate_limit_json (limits : RateLimits) (now : Int)
    (file : Option (Except String Json)) : Except String (Bool × String) := do
  let reqs ← getItem (load_usage file) "requests"
  match reqs with
  | .arr elems => do
    let timestamps ← elems.mapM decodeTimestamp
    pure (check_rate_limit limits now
      (timestamps.map (fun t => { timestamp := t, kind := "" }))).2
  | _ => .error "TypeError: requests value is not iterable"

/-- Characters stripped by Python `str.strip()` with no argument (whitespace;
the rarely seen `\x0b`/`\x0c` are irrelevant to the strings at hand). -/
def stripList (l : List Char) : List Char :=
  ((l.dropWhile Char.isWhitespace).reverse.dropWhile Char.isWhitespace).reverse

/-- Python `s.strip()`. -/
def pyStrip (s : String) : String :=
  String.mk (stripList s.toList)

/-- Split a character list at every newline, keeping empty fields, as Python
`s.split('\n')` does on the underlying characters. -/
def splitNl : List Char → List (List Char)
  | [] => [[]]
  | c :: rest =>
    match splitNl rest with
    | [] => [[]]
    | cur :: more => if c = '\n' then [] :: cur :: more else (c :: cur) :: more

/-- Python `s.split('\n')`. -/
def pySplit (s : String) : List String :=
  (splitNl s.toList).map String.mk

/-- Python `'\n'.join(lines)`. -/
def joinNl : List String → String
  | [] => ""
  | [x] => x
  | x :: y :: ys => x ++ "\n" ++ joinNl (y :: ys)

/-- Whether `pat` begins the list `l`. -/
def leadsWith : List Char → List Char → Bool
  | [], _ => true
  | _ :: _, [] => false
  | p :: ps, c :: cs => (p == c) && leadsWith ps cs

/-- Whether `pat` occurs contiguously inside `l`. -/
def containsSeq (pat : List Char) : List Char → Bool
  | [] => pat.isEmpty
  | c :: cs => leadsWith pat (c :: cs) || containsSeq pat cs

/-- Python `pat in s` for strings: substring membership. -/
def strContains (s pat : String) : Bool :=
  containsSeq pat.toList s.toList

/-- The stderr filter of the print-mode error path
(pattern_detector.py lines 124-125):
`stderr_lines = result.stderr.strip().split('\n') if result.stderr else []`
followed by dropping lines containing `ExperimentalWarning` or
`node --trace-warnings` and blank lines. -/
def stderr_error_lines (stderr : String) : List String :=
  let stderr_lines := if stderr = "" then [] else pySplit (pyStrip stderr)
  stderr_lines.filter (fun line =>
    !(strContains line "ExperimentalWarning") &&
    !(strContains line "node --trace-warnings") &&
    pyStrip line != "")

/-- The timeout diagnostic built in the `subprocess.TimeoutExpired` handler
(pattern_detector.py lines 131-137). -/
def timeout_message (timeout : Nat) : String :=
  "Error: Claude Code execution timed out after " ++ toString timeout ++ " seconds\n\n" ++
  "💡 Try these solutions:\n" ++
  "  • Increase timeout: --timeout " ++ toString (timeout * 2) ++ "\n" ++
  "  • Use streaming mode: --stream\n" ++
  "  • Use interactive mode: --interactive\n" ++
  "  • Analyze smaller code sections\n" ++
  "  • Use session mode for exploratory analysis"

/-- The `PatternDetector` fields that `_execute_claude_code` reads
(pattern_detector.py lines 17-30). -/
structure RunnerConfig where
  target_path : String
  model : String
  interactive : Bool
  stream : Bool
  timeout : Nat
deriving Repr, DecidableEq

/-- Observable outcome of the `subprocess.run` call inside
`_execute_claude_code`: normal completion with exit code and captured output,
`subprocess.TimeoutExpired`, `FileNotFoundError` (executable missing), or any
other exception with its message. -/
inductive RunOutcome where
  | completed : Int → String → String → RunOutcome
  | timedOut : RunOutcome
  | fileNotFound : RunOutcome
  | raised : String → RunOutcome
deriving Repr, DecidableEq

/-- Process-level state touched by `_execute_claude_code`: the process-wide
current working directory (`os.getcwd`/`os.chdir`) and the rate limiter
state. -/
structure RunnerState where
  cwd : String
  tracker : TrackerState
deriving Repr, DecidableEq

/-- Models `PatternDetector._execute_claude_code` (pattern_detector.py lines 68-143)
on its non-streaming execution path (the `subprocess.run` block and the
exception handlers; `outcome` names what the run did, `now` the recording
time).  Mirrors the source exactly: `os.chdir(self.target_path)` first; on
completion `os.chdir(original_cwd)` before the return-code branch; exit code 0
records one request and returns the stripped stdout (or the fixed interactive
confirmation); non-zero exit returns the filtered stderr prefixed with
`"Error executing Claude Code: "`; `TimeoutExpired` and the generic handler
restore the directory; the `FileNotFoundError` handler returns without any
`os.chdir`. -/
def execute_claude_code (cfg : RunnerConfig) (now : Int) (outcome : RunOutcome)
    (st : RunnerState) : RunnerState × String :=
  let original_cwd := st.cwd
  let st1 : RunnerState := { st with cwd := cfg.target_path }
  match outcome with
  | .completed returncode stdout stderr =>
    let st2 : RunnerState := { st1 with cwd := original_cwd }
    if returncode = 0 then
      let st3 : RunnerState := { st2 with tracker := record_request now "pattern_analysis" st2.tracker }
      if cfg.interactive then
        (st3, "Interactive Claude Code session completed. Check your terminal for results.")
      else
        (st3, pyStrip stdout)
    else
      let error_lines := stderr_error_lines stderr
      let error_message := if error_lines.isEmpty then "Unknown error" else joinNl error_lines
      (st2, "Error executing Claude Code: " ++ error_message)
  | .timedOut =>
    ({ st1 with cwd := original_cwd }, timeout_message cfg.timeout)
  | .fileNotFound =>
    (st1, "Error: Claude Code CLI not found. Please install Claude Code and ensure it\x27s in your PATH.")
  | .raised msg =>
    ({ st1 with cwd := original_cwd }, "Error executing Claude Code: " ++ msg)

/-- A sequence of `record_request` calls in order (each pair holds one call,
its `datetime.now()` instant and its `request_type` argument). -/
def record_many (evs : List (Int × String)) (s : TrackerState) : TrackerState :=
  evs.foldl (fun st e => record_request e.1 e.2 st) s

/-- The UsageLog ordering invariant: timestamps ascending. -/
def tsSorted (l : List UsageEvent) : Prop :=
  List.Pairwise (fun a b => a.timestamp ≤ b.timestamp) l

instance (l : List UsageEvent) : Decidable (tsSorted l) :=
  inferInstanceAs (Decidable (List.Pairwise _ l))

/-- Specification-side description of one entry of the `time_until_reset`
result: absent when the window event count (over the raw log, strict
boundary) is under the limit; otherwise `max 0 (t + dur - now)` where `t` is
the timestamp of an oldest event inside the window. -/
def resetEntrySpec (limit : Nat) (dur now : Int) (requests : List UsageEvent)
    (o : Option Int) : Prop :=
  (requests.countP (fun r => decide (now - dur < r.timestamp)) < limit → o = none)
  ∧ (limit ≤ requests.countP (fun r => decide (now - dur < r.timestamp)) →
      ∃ t, o = some (max 0 (t + dur - now))
        ∧ (∃ e ∈ requests, now - dur < e.timestamp ∧ e.timestamp = t)
        ∧ ∀ e ∈ requests, now - dur < e.timestamp → t ≤ e.timestamp)

/-- Claim C2: for every usage log, `get_usage_stats().total_requests` equals
the number of recorded events whose age at query time is under 24 hours, and
the prune step removes exactly the events aged 24 hours or more, keeping all
others. -/
theorem c2_total_requests_prune (limits : RateLimits) (now : Int) (usage : List UsageEvent) :
    (get_usage_stats limits now usage).2.total_requests
        = usage.countP (fun r => decide (now - r.timestamp < 86400))
      ∧ clean_old_requests now usage
        = usage.filter (fun r => decide (now - r.timestamp < 86400)) := by
  constructor
  · simp only [get_usage_stats, clean_old_requests, ← List.countP_eq_length_filter]
    refine List.countP_congr ?_
    intro r _
    simp only [decide_eq_true_eq]
    omega
  · refine List.filter_congr ?_
    intro r _
    simp only [decide_eq_decide]
    omega

/-- Counting inside a trailing window of duration at most 24 hours is
unaffected by the 24-hour prune: every pruned event already fails the window
predicate. -/
theorem windowCount_clean (now dur : Int) (hdur : dur ≤ 86400) (usage : List UsageEvent) :
    windowCount now dur (clean_old_requests now usage)
      = usage.countP (fun r => decide (now - dur < r.timestamp)) := by
  rw [windowCount, clean_old_requests, List.countP_filter]
  refine List.countP_congr ?_
  intro r _
  simp only [Bool.and_eq_true, decide_eq_true_eq]
  omega

/-- Claim C1: `check_rate_limit()` counts the events strictly inside each
trailing window (an event aged exactly the window duration is excluded, hence
the strict `<` in the window predicates below, taken over the raw log),
evaluates minute first, then hour, then day, reports the first exceeded
window with its observed count vs. limit, and returns `(true, "OK")` when all
three counts are under their limits; in particular, at the default limits,
exactly 10 events in the last 60 seconds give `false` citing the minute
window and 9 give `(true, "OK")`. -/
theorem c1_check_rate_limit_spec (limits : RateLimits) (now : Int) (usage : List UsageEvent) :
    ((check_rate_limit limits now usage).2 =
      (if limits.requests_per_minute ≤ usage.countP (fun r => decide (now - 60 < r.timestamp)) then
        (false, "Rate limit exceeded: " ++
          toString (usage.countP (fun r => decide (now - 60 < r.timestamp))) ++ "/" ++
          toString limits.requests_per_minute ++ " requests per minute")
      else if limits.requests_per_hour ≤ usage.countP (fun r => decide (now - 3600 < r.timestamp)) then
        (false, "Rate limit exceeded: " ++
          toString (usage.countP (fun r => decide (now - 3600 < r.timestamp))) ++ "/" ++
          toString limits.requests_per_hour ++ " requests per hour")
      else if limits.requests_per_day ≤ usage.countP (fun r => decide (now - 86400 < r.timestamp)) then
        (false, "Rate limit exceeded: " ++
          toString (usage.countP (fun r => decide (now - 86400 < r.timestamp))) ++ "/" ++
          toString limits.requests_per_day ++ " requests per day")
      else
        (true, "OK")))
    ∧ (check_rate_limit defaultLimits 1000
        ((List.range 10).map (fun i => { timestamp := (1000 : Int) - i, kind := "pattern_analysis" }))).2
        = (false, "Rate limit exceeded: 10/10 requests per minute")
    ∧ (check_rate_limit defaultLimits 1000
        ((List.range 9).map (fun i => { timestamp := (1000 : Int) - i, kind := "pattern_analysis" }))).2
        = (true, "OK") := by
  refine ⟨?_, by decide, by decide⟩
  have hm := windowCount_clean now 60 (by norm_num) usage
  have hh := windowCount_clean now 3600 (by norm_num) usage
  have hd := windowCount_clean now 86400 (by norm_num) usage
  simp only [check_rate_limit, hm, hh, hd]
  by_cases h1 : limits.requests_per_minute ≤ usage.countP (fun r => decide (now - 60 < r.timestamp))
  · simp [h1]
  · by_cases h2 : limits.requests_per_hour ≤ usage.countP (fun r => decide (now - 3600 < r.timestamp))
    · simp [h1, h2]
    · by_cases h3 : limits.requests_per_day ≤ usage.countP (fun r => decide (now - 86400 < r.timestamp))
      · simp [h1, h2, h3]
      · simp [h1, h2, h3]

/-- The list component returned by `check_rate_limit` is the pruned log on
every branch. -/
theorem check_rate_limit_usage (limits : RateLimits) (now : Int) (usage : List UsageEvent) :
    (check_rate_limit limits now usage).1 = clean_old_requests now usage := by
  simp only [check_rate_limit]
  repeat' split
  all_goals rfl

/-- Length of the log after a sequence of `record_request` calls. -/
theorem record_many_length (evs : List (Int × String)) (s : TrackerState) :
    (record_many evs s).usage.length = s.usage.length + evs.length := by
  induction evs generalizing s with
  | nil => rfl
  | cons e rest ih =>
    show (record_many rest (record_request e.1 e.2 s)).usage.length = _
    rw [ih]
    simp [record_request]
    omega

/-- Claim C9: `record_request` performs no quota check and never refuses —
also in a state whose windows are at or over their limits it appends exactly
one event with the current timestamp and the given kind and persists, so the
log grows without bound under repeated calls. -/
theorem c9_record_request_unconditional (limits : RateLimits) (now : Int) (ty : String)
    (s : TrackerState) :
    (record_request now ty s).usage = s.usage ++ [{ timestamp := now, kind := ty }]
    ∧ (record_request now ty s).stored = s.usage ++ [{ timestamp := now, kind := ty }]
    ∧ ((check_rate_limit limits now s.usage).2.1 = false →
        (record_request now ty s).usage.length = s.usage.length + 1)
    ∧ ∀ evs : List (Int × String),
        (record_many evs s).usage.length = s.usage.length + evs.length := by
  refine ⟨rfl, rfl, fun _ => ?_, fun evs => record_many_length evs s⟩
  simp [record_request]

/-- Witness for C9 at a concrete state holding 10 events inside the minute
window: the check refuses, yet `record_request` still appends. -/
theorem c9_record_request_unconditional_witness :
    ((check_rate_limit defaultLimits 1000
        ((List.range 10).map (fun i => { timestamp := (1000 : Int) - i, kind := "pattern_analysis" }))).2.1
      = false)
    ∧ (record_request 1000 "pattern_analysis"
        { usage := (List.range 10).map (fun i => { timestamp := (1000 : Int) - i, kind := "pattern_analysis" }),
          stored := [] }).usage.length
      = ((List.range 10).map (fun i =>
          ({ timestamp := (1000 : Int) - i, kind := "pattern_analysis" } : UsageEvent))).length + 1 := by
  refine ⟨by decide, ?_⟩
  exact (c9_record_request_unconditional defaultLimits 1000 "pattern_analysis" _).2.2.1 (by decide)

/-- Claim C10: `check_rate_limit`, `get_usage_stats`, and `time_until_reset`
never write the storage file; only `record_request` persists, so the pruning
the read operations perform reaches storage only at the next
`record_request`. -/
theorem c10_read_ops_never_write (limits : RateLimits) (now now2 : Int) (ty : String)
    (s : TrackerState) :
    ((check_rate_limit_sys limits now s).1).stored = s.stored
    ∧ ((get_usage_stats_sys limits now s).1).stored = s.stored
    ∧ (time_until_reset_sys limits now s).1 = s
    ∧ (record_request now ty s).stored = (record_request now ty s).usage
    ∧ (record_request now2 ty ((check_rate_limit_sys limits now s).1)).stored
        = clean_old_requests now s.usage ++ [{ timestamp := now2, kind := ty }] := by
  refine ⟨rfl, rfl, rfl, rfl, ?_⟩
  simp [check_rate_limit_sys, record_request, check_rate_limit_usage]

/-- Claim C8: pruning keeps the surviving events in their original relative
order (it yields a sublist) and preserves ascending timestamp order;
`record_request` appends one event timestamped `now`, which under the
real-time-append precondition keeps the log sorted. -/
theorem c8_sorted_invariant (now : Int) (ty : String) (usage : List UsageEvent) :
    (tsSorted usage → tsSorted (clean_old_requests now usage))
    ∧ List.Sublist (clean_old_requests now usage) usage
    ∧ ∀ stored : List UsageEvent, tsSorted usage → (∀ e ∈ usage, e.timestamp ≤ now) →
        tsSorted ((record_request now ty { usage := usage, stored := stored }).usage) := by
  refine ⟨fun h => ?_, List.filter_sublist usage, fun stored hs hle => ?_⟩
  · exact List.Pairwise.sublist (List.filter_sublist usage) h
  · simp only [tsSorted, record_request, List.pairwise_append] at *
    refine ⟨hs, by simp, ?_⟩
    intro a ha b hb
    simp only [List.mem_singleton] at hb
    subst hb
    exact hle a ha

/-- Witness for C8 at a concrete sorted two-event log and a later `now`. -/
theorem c8_sorted_invariant_witness :
    tsSorted [{ timestamp := 1, kind := "a" }, { timestamp := 2, kind := "b" }]
    ∧ (∀ e ∈ [({ timestamp := 1, kind := "a" } : UsageEvent), { timestamp := 2, kind := "b" }],
        e.timestamp ≤ 10)
    ∧ tsSorted ((record_request 10 "pattern_analysis"
        { usage := [{ timestamp := 1, kind := "a" }, { timestamp := 2, kind := "b" }],
          stored := [] }).usage) := by
  refine ⟨by decide, by decide, ?_⟩
  exact (c8_sorted_invariant 10 "pattern_analysis" _).2.2 [] (by decide) (by decide)

/-- Claim C7: an absent storage file and one whose content fails to parse
both yield the empty log at construction, and `check_rate_limit()` on that
fresh or corrupt state returns `(true, "OK")` at the configured limits. -/
theorem c7_fresh_or_corrupt_state (now : Int) (errMsg : String) :
    load_usage none = Json.obj [("requests", Json.arr [])]
    ∧ load_usage (some (Except.error errMsg)) = Json.obj [("requests", Json.arr [])]
    ∧ check_rate_limit_json defaultLimits now none = Except.ok (true, "OK")
    ∧ check_rate_limit_json defaultLimits now (some (Except.error errMsg))
        = Except.ok (true, "OK") := by
  exact ⟨rfl, rfl, rfl, rfl⟩

/-- A list whose `listMin` is `none` is empty. -/
theorem listMin_eq_none (l : List Int) (h : listMin l = none) : l = [] := by
  cases l with
  | nil => rfl
  | cons x xs =>
    simp only [listMin] at h
    cases hzs : listMin xs <;> rw [hzs] at h <;> simp at h

/-- The minimum returned by `listMin` is an element of the list and a lower
bound of it. -/
theorem listMin_spec (l : List Int) (m : Int) (h : listMin l = some m) :
    m ∈ l ∧ ∀ y ∈ l, m ≤ y := by
  induction l generalizing m with
  | nil => simp [listMin] at h
  | cons x xs ih =>
    simp only [listMin] at h
    cases hxs : listMin xs with
    | none =>
      rw [hxs] at h
      simp at h
      have hnil := listMin_eq_none xs hxs
      subst hnil
      subst h
      simp
    | some m' =>
      rw [hxs] at h
      simp at h
      obtain ⟨hm', hle'⟩ := ih m' hxs
      by_cases hx : x ≤ m'
      · simp [hx] at h
        subst h
        refine ⟨List.mem_cons_self _ _, ?_⟩
        intro y hy
        rcases List.mem_cons.mp hy with rfl | hy'
        · omega
        · have := hle' y hy'
          omega
      · simp [hx] at h
        subst h
        refine ⟨List.mem_cons_of_mem x hm', ?_⟩
        intro y hy
        rcases List.mem_cons.mp hy with rfl | hy'
        · omega
        · exact hle' y hy'

/-- A nonempty list has a `listMin`. -/
theorem listMin_isSome (l : List Int) (h : l ≠ []) : ∃ m, listMin l = some m := by
  cases l with
  | nil => exact absurd rfl h
  | cons x xs =>
    simp only [listMin]
    cases listMin xs with
    | none => exact ⟨x, rfl⟩
    | some m' => exact ⟨if x ≤ m' then x else m', rfl⟩

/-- Characterization of one window block of `time_until_reset` for a positive
limit: no error is raised, the entry is absent below the limit, and at or
above the limit it is `max 0 (t + dur - now)` for `t` the oldest in-window
timestamp. -/
theorem window_reset_spec (limit : Nat) (dur now : Int) (requests : List UsageEvent)
    (hpos : 0 < limit) :
    ∃ o, window_reset limit dur now requests = .ok o
      ∧ resetEntrySpec limit dur now requests o := by
  rw [window_reset]
  have hcount : requests.countP (fun r => decide (now - dur < r.timestamp))
      = (requests.filter (fun r => decide (now - dur < r.timestamp))).length :=
    List.countP_eq_length_filter _ _
  by_cases hlim : limit ≤ (requests.filter (fun r => decide (now - dur < r.timestamp))).length
  · have hne : requests.filter (fun r => decide (now - dur < r.timestamp)) ≠ [] := by
      intro hnil
      rw [hnil] at hlim
      simp at hlim
      omega
    have hmapne : (requests.filter (fun r => decide (now - dur < r.timestamp))).map
        (fun req => req.timestamp) ≠ [] := by
      simpa using hne
    obtain ⟨t, ht⟩ := listMin_isSome _ hmapne
    refine ⟨some (max 0 (t + dur - now)), ?_, ?_, ?_⟩
    · simp only [hlim, if_true, ht]
    · intro hlt
      omega
    · intro _
      refine ⟨t, rfl, ?_, ?_⟩
      · have := (listMin_spec _ _ ht).1
        simp only [List.mem_map] at this
        obtain ⟨e, he, rfl⟩ := this
        rw [List.mem_filter] at he
        exact ⟨e, he.1, by simpa using he.2, rfl⟩
      · intro e he hew
        refine (listMin_spec _ _ ht).2 e.timestamp ?_
        simp only [List.mem_map]
        exact ⟨e, List.mem_filter.mpr ⟨he, by simpa using hew⟩, rfl⟩
  · refine ⟨none, by simp only [hlim, if_false], fun _ => rfl, fun hge => ?_⟩
    omega

/-- Claim C5: `time_until_reset()` contains an entry for a window exactly when
that window has an event count at or above its (positive) limit; each entry
equals the seconds until the oldest in-window event ages out,
`oldest.timestamp + window_duration - now`, clamped below at zero; windows
under their limit never appear. -/
theorem c5_time_until_reset_spec (limits : RateLimits) (now : Int)
    (requests : List UsageEvent)
    (hm : 0 < limits.requests_per_minute) (hh : 0 < limits.requests_per_hour)
    (hd : 0 < limits.requests_per_day) :
    ∃ r, time_until_reset limits now requests = .ok r
      ∧ resetEntrySpec limits.requests_per_minute 60 now requests r.minute
      ∧ resetEntrySpec limits.requests_per_hour 3600 now requests r.hour
      ∧ resetEntrySpec limits.requests_per_day 86400 now requests r.day := by
  obtain ⟨om, eom, hom⟩ := window_reset_spec limits.requests_per_minute 60 now requests hm
  obtain ⟨oh, eoh, hoh⟩ := window_reset_spec limits.requests_per_hour 3600 now requests hh
  obtain ⟨od, eod, hod⟩ := window_reset_spec limits.requests_per_day 86400 now requests hd
  refine ⟨{ minute := om, hour := oh, day := od }, ?_, hom, hoh, hod⟩
  simp only [time_until_reset, eom, eoh, eod]
  rfl

/-- Witness for C5: ten events inside the last minute at the default limits
give a minute entry and no hour/day entry. -/
theorem c5_time_until_reset_spec_witness :
    (0 < defaultLimits.requests_per_minute ∧ 0 < defaultLimits.requests_per_hour
      ∧ 0 < defaultLimits.requests_per_day)
    ∧ ∃ r, time_until_reset defaultLimits 1000
          ((List.range 10).map (fun i => { timestamp := (1000 : Int) - i, kind := "pattern_analysis" }))
          = .ok r
        ∧ resetEntrySpec defaultLimits.requests_per_minute 60 1000
            ((List.range 10).map (fun i => { timestamp := (1000 : Int) - i, kind := "pattern_analysis" }))
            r.minute
        ∧ resetEntrySpec defaultLimits.requests_per_hour 3600 1000
            ((List.range 10).map (fun i => { timestamp := (1000 : Int) - i, kind := "pattern_analysis" }))
            r.hour
        ∧ resetEntrySpec defaultLimits.requests_per_day 86400 1000
            ((List.range 10).map (fun i => { timestamp := (1000 : Int) - i, kind := "pattern_analysis" }))
            r.day := by
  exact ⟨⟨by decide, by decide, by decide⟩,
    c5_time_until_reset_spec defaultLimits 1000 _ (by decide) (by decide) (by decide)⟩

/-- A pattern leading a list still leads it after appending on the right. -/
theorem leadsWith_append (pat a b : List Char) (h : leadsWith pat a = true) :
    leadsWith pat (a ++ b) = true := by
  induction pat generalizing a with
  | nil => rfl
  | cons p ps ih =>
    cases a with
    | nil => simp [leadsWith] at h
    | cons c cs =>
      simp only [leadsWith, Bool.and_eq_true] at h
      simp only [List.cons_append, leadsWith, Bool.and_eq_true]
      exact ⟨h.1, ih cs h.2⟩

/-- The empty pattern occurs in every list. -/
theorem containsSeq_nil_pat (l : List Char) : containsSeq [] l = true := by
  cases l with
  | nil => rfl
  | cons c cs => simp [containsSeq, leadsWith]

/-- A leading pattern is in particular contained. -/
theorem containsSeq_of_leadsWith (pat l : List Char) (h : leadsWith pat l = true) :
    containsSeq pat l = true := by
  cases l with
  | nil =>
    cases pat with
    | nil => rfl
    | cons p ps => simp [leadsWith] at h
  | cons c cs =>
    simp only [containsSeq, Bool.or_eq_true]
    exact Or.inl h

/-- Every list leads itself. -/
theorem leadsWith_refl (l : List Char) : leadsWith l l = true := by
  induction l with
  | nil => rfl
  | cons c cs ih => simp [leadsWith, ih]

/-- Containment is stable under appending on the right. -/
theorem containsSeq_append_left (pat a b : List Char) (h : containsSeq pat a = true) :
    containsSeq pat (a ++ b) = true := by
  induction a with
  | nil =>
    simp only [containsSeq, List.isEmpty_iff] at h
    subst h
    exact containsSeq_nil_pat b
  | cons c cs ih =>
    simp only [containsSeq, Bool.or_eq_true] at h
    simp only [List.cons_append, containsSeq, Bool.or_eq_true]
    rcases h with h | h
    · exact Or.inl (by simpa using leadsWith_append pat (c :: cs) b h)
    · exact Or.inr (ih h)

/-- Containment is stable under prepending on the left. -/
theorem containsSeq_append_right (pat a b : List Char) (h : containsSeq pat b = true) :
    containsSeq pat (a ++ b) = true := by
  induction a with
  | nil => exact h
  | cons c cs ih =>
    simp only [List.cons_append, containsSeq, Bool.or_eq_true]
    exact Or.inr ih

/-- A string contains a pattern that leads it. -/
theorem containsSeq_self_append (pat b : List Char) :
    containsSeq pat (pat ++ b) = true := by
  cases pat with
  | nil => exact containsSeq_nil_pat b
  | cons p ps =>
    refine containsSeq_of_leadsWith _ _ ?_
    exact leadsWith_append (p :: ps) (p :: ps) b (leadsWith_refl _)

/-- String-level right-append stability of substring containment. -/
theorem strContains_append_left (a b pat : String) (h : strContains a pat = true) :
    strContains (a ++ b) pat = true := by
  simp only [strContains, String.toList] at *
  rw [String.data_append]
  exact containsSeq_append_left _ _ _ h

/-- String-level left-append stability of substring containment. -/
theorem strContains_append_right (a b pat : String) (h : strContains b pat = true) :
    strContains (a ++ b) pat = true := by
  simp only [strContains, String.toList] at *
  rw [String.data_append]
  exact containsSeq_append_right _ _ _ h

/-- A string contains its own prefix part. -/
theorem strContains_head (pat b : String) : strContains (pat ++ b) pat = true := by
  simp only [strContains, String.toList]
  rw [String.data_append]
  exact containsSeq_self_append _ _

/-- Every string contains itself. -/
theorem strContains_refl (s : String) : strContains s s = true := by
  simp only [strContains, String.toList]
  have := containsSeq_self_append s.data []
  rwa [List.append_nil] at this

/-- Counterexample for claim C3 as stated: with exit code 1 and standard
error `"boom"`, the print-mode result is not the filtered standard-error
lines themselves — the runner prepends `"Error executing Claude Code: "`. -/
theorem c3_error_return_counterexample :
    (execute_claude_code
        { target_path := "/repo", model := "sonnet", interactive := false,
          stream := false, timeout := 300 } 42
        (RunOutcome.completed 1 "" "boom")
        { cwd := "/home", tracker := { usage := [], stored := [] } }).2
      ≠ "boom"
    ∧ (execute_claude_code
        { target_path := "/repo", model := "sonnet", interactive := false,
          stream := false, timeout := 300 } 42
        (RunOutcome.completed 1 "" "boom")
        { cwd := "/home", tracker := { usage := [], stored := [] } }).2
      = "Error executing Claude Code: boom" := by
  exact ⟨by decide, by decide⟩

/-- Claim C3 (amended): in print mode, exit code 0 yields the stripped
standard output and appends exactly one usage event; a non-zero exit leaves
the tracker untouched and yields `"Error executing Claude Code: "` followed
by the standard-error lines with known-benign warning lines filtered out, or
by `"Unknown error"` if no lines remain after filtering. -/
theorem c3_print_mode_result (cfg : RunnerConfig) (now : Int) (stdout stderr : String)
    (code : Int) (st : RunnerState) (hi : cfg.interactive = false) :
    (execute_claude_code cfg now (RunOutcome.completed 0 stdout stderr) st).2 = pyStrip stdout
    ∧ (execute_claude_code cfg now (RunOutcome.completed 0 stdout stderr) st).1.tracker.usage
        = st.tracker.usage ++ [{ timestamp := now, kind := "pattern_analysis" }]
    ∧ (code ≠ 0 →
        (execute_claude_code cfg now (RunOutcome.completed code stdout stderr) st).1.tracker
            = st.tracker
        ∧ (execute_claude_code cfg now (RunOutcome.completed code stdout stderr) st).2
            = "Error executing Claude Code: " ++
              (if (stderr_error_lines stderr).isEmpty then "Unknown error"
               else joinNl (stderr_error_lines stderr))) := by
  refine ⟨?_, ?_, fun hc => ⟨?_, ?_⟩⟩
  · simp [execute_claude_code, hi]
  · simp [execute_claude_code, hi, record_request]
  · simp [execute_claude_code, hc]
  · simp [execute_claude_code, hc]

/-- Witness for C3 (amended) in print mode: exit 0 with stdout
`"  hello\n"` returns `"hello"`; exit 1 with one benign-warning line and one
real line returns the prefixed filtered message. -/
theorem c3_print_mode_result_witness :
    (({ target_path := "/repo", model := "sonnet", interactive := false,
        stream := false, timeout := 300 } : RunnerConfig).interactive = false)
    ∧ (execute_claude_code
          { target_path := "/repo", model := "sonnet", interactive := false,
            stream := false, timeout := 300 } 42
          (RunOutcome.completed 0 "  hello\n" "")
          { cwd := "/home", tracker := { usage := [], stored := [] } }).2
        = pyStrip "  hello\n"
    ∧ pyStrip "  hello\n" = "hello"
    ∧ ((1 : Int) ≠ 0)
    ∧ (execute_claude_code
          { target_path := "/repo", model := "sonnet", interactive := false,
            stream := false, timeout := 300 } 42
          (RunOutcome.completed 1 "" "junk\nExperimentalWarning: fs\n")
          { cwd := "/home", tracker := { usage := [], stored := [] } }).2
        = "Error executing Claude Code: " ++
          (if (stderr_error_lines "junk\nExperimentalWarning: fs\n").isEmpty then "Unknown error"
           else joinNl (stderr_error_lines "junk\nExperimentalWarning: fs\n")) := by
  refine ⟨rfl, ?_, by decide, by decide, ?_⟩
  · exact (c3_print_mode_result _ 42 "  hello\n" "" 1 _ rfl).1
  · exact ((c3_print_mode_result _ 42 "" "junk\nExperimentalWarning: fs\n" 1 _ rfl).2.2
      (by decide)).2

/-- Claim C4 is violated by the code: on the `FileNotFoundError` path
(external tool not installed) `_execute_claude_code` returns without
`os.chdir(original_cwd)`, leaving the process working directory at the
target path instead of restoring the pre-call value. -/
theorem c4_filenotfound_cwd_not_restored :
    (execute_claude_code
        { target_path := "/target", model := "sonnet", interactive := false,
          stream := false, timeout := 300 } 0 RunOutcome.fileNotFound
        { cwd := "/orig", tracker := { usage := [], stored := [] } }).1.cwd
      = "/target"
    ∧ (execute_claude_code
        { target_path := "/target", model := "sonnet", interactive := false,
          stream := false, timeout := 300 } 0 RunOutcome.fileNotFound
        { cwd := "/orig", tracker := { usage := [], stored := [] } }).2
      = "Error: Claude Code CLI not found. Please install Claude Code and ensure it\x27s in your PATH."
    ∧ ("/target" : String) ≠ "/orig"
    ∧ (execute_claude_code
        { target_path := "/target", model := "sonnet", interactive := false,
          stream := false, timeout := 300 } 0 RunOutcome.timedOut
        { cwd := "/orig", tracker := { usage := [], stored := [] } }).1.cwd
      = "/orig" := by
  exact ⟨rfl, rfl, by decide, rfl⟩

/-- Claim C6: when print-mode execution times out, the runner returns the
timeout diagnostic (a string, not an exception) — which mentions the timeout
and its configured value and suggests a larger timeout and the streaming and
interactive modes — records no usage event, and restores the working
directory. -/
theorem c6_timeout_diagnostic (cfg : RunnerConfig) (now : Int) (st : RunnerState)
    (_hi : cfg.interactive = false) (_hs : cfg.stream = false) :
    (execute_claude_code cfg now RunOutcome.timedOut st).1.tracker = st.tracker
    ∧ (execute_claude_code cfg now RunOutcome.timedOut st).1.cwd = st.cwd
    ∧ (execute_claude_code cfg now RunOutcome.timedOut st).2 = timeout_message cfg.timeout
    ∧ strContains (execute_claude_code cfg now RunOutcome.timedOut st).2 "timed out" = true
    ∧ strContains (execute_claude_code cfg now RunOutcome.timedOut st).2
        (toString cfg.timeout) = true
    ∧ strContains (execute_claude_code cfg now RunOutcome.timedOut st).2 "--timeout" = true
    ∧ strContains (execute_claude_code cfg now RunOutcome.timedOut st).2 "--stream" = true
    ∧ strContains (execute_claude_code cfg now RunOutcome.timedOut st).2
        "--interactive" = true := by
  refine ⟨rfl, rfl, rfl, ?_, ?_, ?_, ?_, ?_⟩
  · show strContains (timeout_message cfg.timeout) "timed out" = true
    simp only [timeout_message]
    apply strContains_append_left
    apply strContains_append_left
    apply strContains_append_left
    apply strContains_append_left
    apply strContains_append_left
    apply strContains_append_left
    apply strContains_append_left
    apply strContains_append_left
    apply strContains_append_left
    apply strContains_append_left
    decide
  · show strContains (timeout_message cfg.timeout) (toString cfg.timeout) = true
    simp only [timeout_message]
    apply strContains_append_left
    apply strContains_append_left
    apply strContains_append_left
    apply strContains_append_left
    apply strContains_append_left
    apply strContains_append_left
    apply strContains_append_left
    apply strContains_append_left
    apply strContains_append_left
    apply strContains_append_right
    exact strContains_refl _
  · show strContains (timeout_message cfg.timeout) "--timeout" = true
    simp only [timeout_message]
    apply strContains_append_left
    apply strContains_append_left
    apply strContains_append_left
    apply strContains_append_left
    apply strContains_append_left
    apply strContains_append_left
    apply strContains_append_right
    decide
  · show strContains (timeout_message cfg.timeout) "--stream" = true
    simp only [timeout_message]
    apply strContains_append_left
    apply strContains_append_left
    apply strContains_append_left
    apply strContains_append_right
    decide
  · show strContains (timeout_message cfg.timeout) "--interactive" = true
    simp only [timeout_message]
    apply strContains_append_left
    apply strContains_append_left
    apply strContains_append_right
    decide

/-- Witness for C6 at a concrete print-mode configuration with a 5-second
timeout. -/
theorem c6_timeout_diagnostic_witness :
    (({ target_path := "/repo", model := "sonnet", interactive := false,
        stream := false, timeout := 5 } : RunnerConfig).interactive = false)
    ∧ (({ target_path := "/repo", model := "sonnet", interactive := false,
          stream := false, timeout := 5 } : RunnerConfig).stream = false)
    ∧ (execute_claude_code
          { target_path := "/repo", model := "sonnet", interactive := false,
            stream := false, timeout := 5 } 42 RunOutcome.timedOut
          { cwd := "/home", tracker := { usage := [], stored := [] } }).1.tracker
        = { usage := [], stored := [] }
    ∧ strContains (execute_claude_code
          { target_path := "/repo", model := "sonnet", interactive := false,
            stream := false, timeout := 5 } 42 RunOutcome.timedOut
          { cwd := "/home", tracker := { usage := [], stored := [] } }).2
        "timed out" = true := by
  refine ⟨rfl, rfl, ?_, ?_⟩
  · exact (c6_timeout_diagnostic _ 42 _ rfl rfl).1
  · exact (c6_timeout_diagnostic _ 42 _ rfl rfl).2.2.2.1
